/-
Verification of the document content-extraction pipeline
(investment_evaluation/file_parser.py) against its specification.

The Python module is shallowly embedded: each function of the source is
translated into an executable Lean definition over explicit environment
records that stand for the filesystem, the MIME databases, the PDF object
graph and the OCR backend.  Python exceptions are modelled by the `PyErr`
inductive and `Except`; Python generators are modelled by `GenRun`, the
observable behaviour of one iteration of a generator body (the yielded
chunks followed by either normal termination or an exception), together
with the fact that *calling* a generator function in Python only creates
the generator object and executes none of the body.
-/
import Mathlib

set_option maxHeartbeats 1000000

/-- Python exception values relevant to file_parser.py.  The first group are
builtin / library exceptions; the second group are the classes defined in the
module (`FileParserError` and its four subclasses, lines 32-50 of the
source).  Each constructor carries the message `str(e)` would produce. -/
inductive PyErr where
  | ioError (msg : String)
  | connectionError (msg : String)
  | fileNotFound (msg : String)
  | typeError (msg : String)
  | badZipFile (msg : String)
  | pdfReadError (msg : String)
  | permissionError (msg : String)
  | unidentifiedImage (msg : String)
  | fileParserBase (msg : String)
  | fileTooLarge (msg : String)
  | processingTimeout (msg : String)
  | unsupportedFileType (msg : String)
  | parseError (msg : String)
  | otherExc (msg : String)
deriving DecidableEq, Repr

/-- The message payload, i.e. `str(e)`. -/
def PyErr.msg : PyErr → String
  | .ioError m | .connectionError m | .fileNotFound m | .typeError m
  | .badZipFile m | .pdfReadError m | .permissionError m | .unidentifiedImage m
  | .fileParserBase m | .fileTooLarge m | .processingTimeout m
  | .unsupportedFileType m | .parseError m | .otherExc m => m

/-- The exception classes caught by the retry decorator:
`except (IOError, ConnectionError)` (line 60). -/
def PyErr.isTransient : PyErr → Bool
  | .ioError _ | .connectionError _ => true
  | _ => false

/-- Membership in the `FileParserError` class hierarchy (lines 32-50):
the base class and its four subclasses.  Builtin exceptions such as
`FileNotFoundError` are not members. -/
def PyErr.isFileParserError : PyErr → Bool
  | .fileParserBase _ | .fileTooLarge _ | .processingTimeout _
  | .unsupportedFileType _ | .parseError _ => true
  | _ => false

/-- Constructor tag, used to compare which *variant* two exceptions are
(same Python class, message ignored). -/
def PyErr.ctorTag : PyErr → Nat
  | .ioError _ => 0
  | .connectionError _ => 1
  | .fileNotFound _ => 2
  | .typeError _ => 3
  | .badZipFile _ => 4
  | .pdfReadError _ => 5
  | .permissionError _ => 6
  | .unidentifiedImage _ => 7
  | .fileParserBase _ => 8
  | .fileTooLarge _ => 9
  | .processingTimeout _ => 10
  | .unsupportedFileType _ => 11
  | .parseError _ => 12
  | .otherExc _ => 13

/-- `MAX_FILE_SIZE = 100 * 1024 * 1024` (line 29). -/
def MAX_FILE_SIZE : Nat := 100 * 1024 * 1024

/-- `MAX_PROCESSING_TIME = 300` seconds (line 30). -/
def MAX_PROCESSING_TIME : Nat := 300

instance {ε α : Type} [DecidableEq ε] [DecidableEq α] : DecidableEq (Except ε α) :=
  fun a b =>
    match a, b with
    | .ok x, .ok y =>
        if h : x = y then .isTrue (by rw [h]) else .isFalse (by simp [h])
    | .error x, .error y =>
        if h : x = y then .isTrue (by rw [h]) else .isFalse (by simp [h])
    | .ok _, .error _ => .isFalse (by simp)
    | .error _, .ok _ => .isFalse (by simp)

/-- Result of running a retry-wrapped operation: the value or the raised
exception, the number of invocations of the wrapped callable, and the total
time spent in `time.sleep(delay)` calls. -/
structure RetryOutcome (α : Type) where
  result : Except PyErr α
  calls : Nat
  slept : Nat
deriving DecidableEq

/-- The loop body of the `retry` decorator (lines 52-67):
`while attempts < max_attempts: try: return func(...) except (IOError,
ConnectionError): attempts += 1; if attempts == max_attempts: raise;
time.sleep(delay)`.  `remaining` is `max_attempts - attempts`; `f` is the
wrapped callable, indexed by the attempt number so an environment can make
different attempts behave differently.  Non-transient exceptions are not
caught and propagate at once. -/
def retryLoop (delay : Nat) (f : Nat → Except PyErr α) :
    Nat → Nat → Nat → Nat → RetryOutcome α
  | 0, _, calls, slept =>
      ⟨.error (.otherExc "retry loop fell through"), calls, slept⟩
  | remaining + 1, attempt, calls, slept =>
      match f attempt with
      | .ok a => ⟨.ok a, calls + 1, slept⟩
      | .error e =>
          if e.isTransient then
            if remaining == 0 then ⟨.error e, calls + 1, slept⟩
            else retryLoop delay f remaining (attempt + 1) (calls + 1) (slept + delay)
          else ⟨.error e, calls + 1, slept⟩

/-- `retry(max_attempts, delay)` applied to a plain (non-generator)
callable. -/
def retryRun (maxAttempts delay : Nat) (f : Nat → Except PyErr α) :
    RetryOutcome α :=
  retryLoop delay f maxAttempts 0 0 0

/-- Python substring test `needle in hay`. -/
def strContains (hay needle : String) : Bool :=
  decide (needle.toList <:+: hay.toList)

/-- Python `s.endswith(suffix)` / `file_path.endswith(...)`. -/
def strEndsWith (s suffix : String) : Bool :=
  decide (suffix.toList <:+ s.toList)

/-- Model of the Python stdlib `mimetypes.guess_type(path)[0]` extension
table, restricted to the suffixes exercised here.  The stdlib table has no
entry for `.dat`, so `guess_type` returns `None` for such a path. -/
def mimetypesGuess (path : String) : Option String :=
  if strEndsWith path ".zip" then some "application/zip"
  else if strEndsWith path ".pdf" then some "application/pdf"
  else if strEndsWith path ".txt" then some "text/plain"
  else if strEndsWith path ".docx" then
    some "application/vnd.openxmlformats-officedocument.wordprocessingml.document"
  else if strEndsWith path ".xlsx" then
    some "application/vnd.openxmlformats-officedocument.spreadsheetml.sheet"
  else if strEndsWith path ".jpg" then some "image/jpeg"
  else if strEndsWith path ".png" then some "image/png"
  else none

/-- Environment for `identify_format`: the extension table lookup for the
path, whether python-magic imported successfully (`MAGIC_AVAILABLE`,
lines 22-27), and what `self.mime.from_file(path)` would return (or raise)
when magic is available. -/
structure SniffEnv where
  extGuess : Option String
  magicAvailable : Bool
  magicResult : Except PyErr String
deriving DecidableEq

/-- The dictionary returned by `identify_format` (lines 95-98). -/
structure FormatGuess where
  extension_guess : Option String
  content_guess : Option String
deriving DecidableEq, Repr

/-- `identify_format` (lines 83-101): extension guess from `mimetypes`;
content guess from magic when available, else the extension guess; any
exception inside the body is caught and re-raised as
`FileParserError("Failed to identify file format: ...")`. -/
def identify_format (env : SniffEnv) : Except PyErr FormatGuess :=
  if env.magicAvailable then
    match env.magicResult with
    | .ok c => .ok ⟨env.extGuess, some c⟩
    | .error e =>
        let m := e.msg
        .error (.fileParserBase s!"Failed to identify file format: {m}")
  else
    .ok ⟨env.extGuess, env.extGuess⟩

/-- The six extractor methods of `FileParser`. -/
inductive Extractor where
  | zip | pdf | text | docx | xlsx | image
deriving DecidableEq, Repr

/-- The dispatch chain of `parse_file` (lines 114-128), deciding which
parsing function handles the file.  In Python, when `content_guess` is
`None` the very first test `"zip" in file_format["content_guess"]` raises
`TypeError`, before any extension fallback can be consulted. -/
def selectExtractor (content_guess : Option String) (path : String) :
    Except PyErr Extractor :=
  match content_guess with
  | none => .error (.typeError "argument of type NoneType is not iterable")
  | some cg =>
      if strContains cg "zip" then .ok .zip
      else if strContains cg "pdf" then .ok .pdf
      else if strContains cg "text" then .ok .text
      else if strContains cg "word" || strEndsWith path ".docx" then .ok .docx
      else if strContains cg "excel" || strEndsWith path ".xlsx" then .ok .xlsx
      else if strContains cg "image" then .ok .image
      else .error (.unsupportedFileType s!"Unsupported file format: {path}")

/-- Written from the specification sentence for the dispatch rule: a list of
guards "evaluated in this fixed priority order": zip, pdf, text,
docx (content contains "word" or path ends in .docx), xlsx (content contains
"excel" or path ends in .xlsx), image. -/
def dispatchTable (cg path : String) : List (Bool × Extractor) :=
  [(strContains cg "zip", .zip),
   (strContains cg "pdf", .pdf),
   (strContains cg "text", .text),
   (strContains cg "word" || strEndsWith path ".docx", .docx),
   (strContains cg "excel" || strEndsWith path ".xlsx", .xlsx),
   (strContains cg "image", .image)]

/-- Specification-side dispatcher: the first guard of `dispatchTable` that
holds wins; if none holds the format is unsupported. -/
def dispatchSpec (cg path : String) : Except PyErr Extractor :=
  match (dispatchTable cg path).find? (fun g => g.1) with
  | some g => .ok g.2
  | none => .error (.unsupportedFileType s!"Unsupported file format: {path}")

/-- Observable behaviour of one run of an extractor generator body: the
chunks it yields in order, then either normal exhaustion (`none`) or an
exception raised from inside the body (`some e`).  Calling the generator
function itself executes none of this. -/
structure GenRun where
  chunks : List String
  final : Option PyErr
deriving DecidableEq

/-- A generator body that yields nothing and ends normally. -/
def emptyRun : GenRun := ⟨[], none⟩

/-- Observable low-level filesystem events of a `parse_file` call, used to
state in which order metadata and content are touched. -/
inductive Ev where
  | metaExists
  | metaSize
  | sniffContent
  | extractorStart (e : Extractor)
deriving DecidableEq, Repr

/-- Environment of one `parse_file` call: the file, the sniffing world, the
wall-clock cost model and the behaviour of each extractor body on this
file. -/
structure ParseEnv where
  path : String
  fileExists : Bool
  size : Nat
  sniff : SniffEnv
  sniffTime : Nat
  chunkCost : Nat → Nat
  extractorRun : Extractor → GenRun

/-- Result of a `parse_file` call: the returned string or raised exception,
the ordered filesystem events, the total time spent sleeping in retry
delays, and how many times an extractor generator body was started. -/
structure ParseResultT where
  result : Except PyErr String
  events : List Ev
  slept : Nat
  bodyStarts : Nat

/-- The exception policy of the handler of `parse_file` (lines 140-144):
`except FileParserError: raise` / `except Exception as e:
raise ParseError(f"Failed to parse file: {e}")`. -/
def wrapErr (e : PyErr) : PyErr :=
  if e.isFileParserError then e
  else
    let m := e.msg
    .parseError s!"Failed to parse file: {m}"

/-- The chunk-aggregation loop of `parse_file` (lines 130-137): append each
chunk to the result, then compare `time.time() - start_time` against
`MAX_PROCESSING_TIME`.  `elapsed` is the wall time already on the clock when
the loop starts; producing chunk `i` costs `cost i`. -/
def extractLoop (cost : Nat → Nat) :
    List String → Nat → Nat → String → Except PyErr String
  | [], _, _, acc => .ok acc
  | c :: rest, i, elapsed, acc =>
      let acc2 := acc ++ c
      let elapsed2 := elapsed + cost i
      if elapsed2 > MAX_PROCESSING_TIME then
        .error (.processingTimeout s!"Processing time exceeded {MAX_PROCESSING_TIME} seconds")
      else extractLoop cost rest (i + 1) elapsed2 acc2

/-- `parse_file` (lines 103-144).  Steps, in source order:
`os.path.exists` check (raises builtin `FileNotFoundError`);
`check_file_size` (lines 77-81, a metadata-only read raising
`FileTooLargeError`); then inside the try block: `start_time = time.time()`;
`identify_format` (retry-wrapped; its internal handler turns every failure
into the non-transient `FileParserError`, so the retry never fires);
extractor dispatch; the retry-wrapped generator *call*, which merely creates
the generator (a Python generator function executes no body code when
called, hence the call itself can raise no transient error); and the
aggregation loop driving the generator body once.  The deadline clock
already includes the sniffing time because `start_time` is taken before
`identify_format`. -/
def parse_file (env : ParseEnv) : ParseResultT :=
  if !env.fileExists then
    let p := env.path
    ⟨.error (.fileNotFound s!"File not found: {p}"), [.metaExists], 0, 0⟩
  else if env.size > MAX_FILE_SIZE then
    let sz := env.size
    let mx := MAX_FILE_SIZE
    ⟨.error (.fileTooLarge s!"File is too large ({sz} bytes). Maximum allowed size is {mx} bytes."),
      [.metaExists, .metaSize], 0, 0⟩
  else
    let baseEvents :=
      [Ev.metaExists, Ev.metaSize] ++
        (if env.sniff.magicAvailable then [Ev.sniffContent] else [])
    let ident := retryRun 3 2 (fun _ => identify_format env.sniff)
    match ident.result with
    | .error e => ⟨.error (wrapErr e), baseEvents, ident.slept, 0⟩
    | .ok fg =>
        match selectExtractor fg.content_guess env.path with
        | .error e => ⟨.error (wrapErr e), baseEvents, ident.slept, 0⟩
        | .ok ex =>
            let callOutcome :=
              retryRun 3 2 (fun _ => (.ok (env.extractorRun ex) : Except PyErr GenRun))
            match callOutcome.result with
            | .error e =>
                ⟨.error (wrapErr e), baseEvents ++ [.extractorStart ex],
                  ident.slept + callOutcome.slept, 0⟩
            | .ok gen =>
                let evs := baseEvents ++ [Ev.extractorStart ex]
                let slt := ident.slept + callOutcome.slept
                match extractLoop env.chunkCost gen.chunks 0 env.sniffTime "" with
                | .error e => ⟨.error (wrapErr e), evs, slt, 1⟩
                | .ok acc =>
                    match gen.final with
                    | some e => ⟨.error (wrapErr e), evs, slt, 1⟩
                    | none => ⟨.ok acc, evs, slt, 1⟩

/-- The extractor `parse_file` would drive for a given environment, if
sniffing and dispatch succeed. -/
def chosenExtractor (env : ParseEnv) : Option Extractor :=
  match identify_format env.sniff with
  | .error _ => none
  | .ok fg => (selectExtractor fg.content_guess env.path).toOption

/-- `result = ""` then `result += chunk` for each chunk, in production
order (lines 131-133). -/
def concatChunks (cs : List String) : String :=
  cs.foldl (fun a c => a ++ c) ""

/-- An image XObject in the resource dictionary of a PDF page, as read by
`ocr_pdf_page` (lines 196-230): its declared filters (already normalised to
a list, mirroring lines 203-204), colour space and bits per component, and
what `pytesseract.image_to_string` would return (or raise) on the decoded
image. -/
structure XObjImage where
  colorSpace : String
  bitsPerComponent : Nat
  filters : List String
  ocrResult : Except PyErr String
deriving DecidableEq

/-- One entry of the `/XObject` dictionary, in iteration order.
`formNested hasX kids` is a Form XObject whose byte content stream, wrapped
as a minimal one-page PDF (lines 236-240), yields a page whose resources
are described by `hasX`/`kids`; `formSkip` is a Form XObject whose content
is not a byte string (skipped by the `isinstance(content, bytes)` test);
`other` is any XObject of another subtype. -/
inductive PdfXObj where
  | image (img : XObjImage)
  | formNested (hasXObject : Bool) (kids : List PdfXObj)
  | formSkip
  | other

/-- The acceptance test the first loop of `ocr_pdf_page` applies to an
image XObject: a `/DCTDecode` (JPEG) stream is decoded regardless of the
declared colour space, otherwise the colour space must be `/DeviceRGB` or
`/DeviceGray` and the bit depth 8 or 1. -/
def imageSupported (img : XObjImage) : Bool :=
  img.filters.contains "/DCTDecode" ||
    ((img.colorSpace == "/DeviceRGB" || img.colorSpace == "/DeviceGray") &&
      (img.bitsPerComponent == 8 || img.bitsPerComponent == 1))

/-- The first loop of `ocr_pdf_page` (lines 194-230): scan the XObjects in
order; skip non-image subtypes; for an image, decode the JPEG stream
directly when `/DCTDecode` is among its filters, else `continue` past
unsupported colour spaces (line 217) and unsupported bit depths (line 227);
on the first decodable image, return the OCR text.  The returned list
records every image actually handed to the OCR backend; an exception from
the backend propagates (to be caught by the method-level handler). -/
def ocrImagePass : List PdfXObj → Except PyErr (Option String) × List XObjImage
  | [] => (.ok none, [])
  | .image img :: rest =>
      if img.filters.contains "/DCTDecode" then
        match img.ocrResult with
        | .ok t => (.ok (some t), [img])
        | .error e => (.error e, [img])
      else if img.colorSpace == "/DeviceRGB" || img.colorSpace == "/DeviceGray" then
        if img.bitsPerComponent == 8 || img.bitsPerComponent == 1 then
          match img.ocrResult with
          | .ok t => (.ok (some t), [img])
          | .error e => (.error e, [img])
        else ocrImagePass rest
      else ocrImagePass rest
  | _ :: rest => ocrImagePass rest

/-- The search of the second loop of `ocr_pdf_page` (lines 233-242): the
first Form XObject whose content stream is a byte string, wrapped as a new
single-page PDF.  Form XObjects whose content is not bytes, images and
other subtypes are passed over. -/
def firstForm : List PdfXObj → Option (Bool × List PdfXObj)
  | [] => none
  | .formNested h kids :: _ => some (h, kids)
  | _ :: rest => firstForm rest

theorem firstForm_sizeOf_lt {xs : List PdfXObj} {h : Bool} {kids : List PdfXObj}
    (hf : firstForm xs = some (h, kids)) : sizeOf kids < sizeOf xs := by
  induction xs with
  | nil => simp [firstForm] at hf
  | cons x rest ih =>
      cases x with
      | image img => simp [firstForm] at hf; have := ih hf; simp; omega
      | formNested h2 kids2 =>
          simp [firstForm] at hf
          obtain ⟨h1, h2⟩ := hf
          subst h1; subst h2
          simp
          omega
      | formSkip => simp [firstForm] at hf; have := ih hf; simp; omega
      | other => simp [firstForm] at hf; have := ih hf; simp; omega

/-- `ocr_pdf_page` (lines 189-248).  The whole body sits in a
`try ... except Exception: return ""`.  When the resources hold no
`/XObject` entry the first loop is skipped and the dictionary
access raises `KeyError`, absorbed into `""`.  Otherwise the first loop
looks for a decodable image (see `ocrImagePass`); failing that, the second
loop wraps the first byte-content Form XObject as a fresh page and the
method recurses on it (line 242); failing that too, the method logs and
returns `""` (lines 244-245).  Besides the returned text, the model
accumulates the list of images handed to the OCR backend. -/
def ocr_pdf_page (hasXObject : Bool) (xobjs : List PdfXObj) :
    String × List XObjImage :=
  if hasXObject then
    match ocrImagePass xobjs with
    | (.error _, calls) => ("", calls)
    | (.ok (some t), calls) => (t, calls)
    | (.ok none, calls) =>
        match hfm : firstForm xobjs with
        | some (h, kids) =>
            let r := ocr_pdf_page h kids
            (r.1, calls ++ r.2)
        | none => ("", calls)
  else ("", [])
termination_by sizeOf xobjs
decreasing_by exact firstForm_sizeOf_lt hfm

/-- Specification-side scan: the first image XObject, in iteration order,
that passes the acceptance test `imageSupported`. -/
def firstSupported : List PdfXObj → Option XObjImage
  | [] => none
  | .image img :: rest =>
      if imageSupported img then some img else firstSupported rest
  | _ :: rest => firstSupported rest

/-- One page of a PDF document as seen by `parse_pdf` (lines 163-178):
the outcome of `page.extract_text()` (which may return `None` or raise),
and the page resource dictionary as consumed by `ocr_pdf_page`. -/
structure PdfPageSrc where
  extractText : Except PyErr (Option String)
  hasXObject : Bool
  xobjs : List PdfXObj

/-- Python `x or ""` applied to the result of `extract_text()` (line 171):
`None` becomes the empty string, any string stays itself. -/
def pyOr : Option String → String
  | none => ""
  | some s => s

/-- Python `not text.strip()`: true exactly when the string is empty or
consists of whitespace only. -/
def pyStripEmpty (s : String) : Bool :=
  s.toList.all Char.isWhitespace

/-- The exception handlers of `parse_pdf` (lines 175-178):
`PdfReadError` becomes `ParseError("The file is not a valid PDF or is
encrypted")`, everything else `ParseError(f"Error parsing PDF file: {e}")`. -/
def pdfWrapErr (e : PyErr) : PyErr :=
  match e with
  | .pdfReadError _ => .parseError "The file is not a valid PDF or is encrypted"
  | e =>
      let m := e.msg
      .parseError s!"Error parsing PDF file: {m}"

/-- The per-page body of the loop of `parse_pdf` (lines 171-173):
`text = page.extract_text() or ""`; if the text is empty or whitespace-only,
replace it by `self.ocr_pdf_page(page)`.  Returns the emitted text and
whether OCR was invoked for this page; an exception from `extract_text`
propagates. -/
def pdfPageEmit (p : PdfPageSrc) : Except PyErr (String × Bool) :=
  match p.extractText with
  | .error e => .error e
  | .ok o =>
      let text := pyOr o
      if pyStripEmpty text then
        .ok ((ocr_pdf_page p.hasXObject p.xobjs).1, true)
      else .ok (text, false)

/-- Total variant of `pdfPageEmit` for stating what a successfully emitted
page contains. -/
def pdfEmitOk (p : PdfPageSrc) : String × Bool :=
  match pdfPageEmit p with
  | .ok r => r
  | .error _ => ("", false)

/-- The chunk text of page `j` (0-based) of `total`:
`f"Page {i+1}/{total_pages}: {text}\n"` (line 174). -/
def pdfChunk (total j : Nat) (t : String) : String :=
  let j1 := j + 1
  s!"Page {j1}/{total}: {t}\n"

/-- The page loop of `parse_pdf` (lines 170-174), as the generator body it
produces: chunks for the pages processed before any failure, the set of
0-based page indices for which OCR was invoked, and the exception (already
wrapped by the handlers) that ends the run, if any. -/
def parse_pdf_loop (total : Nat) :
    List PdfPageSrc → Nat → List String × List Nat × Option PyErr
  | [], _ => ([], [], none)
  | p :: rest, i =>
      match pdfPageEmit p with
      | .error e => ([], [], some (pdfWrapErr e))
      | .ok (t, used) =>
          let r := parse_pdf_loop total rest (i + 1)
          (pdfChunk total i t :: r.1, (if used then [i] else []) ++ r.2.1, r.2.2)

/-- The generator body of `parse_pdf` (lines 163-178) for a document whose
`open` + `PdfReader` step gives `doc` (a page list, or the exception it
raises).  Returns the observable generator run plus the OCRed page
indices. -/
def parse_pdf_run (doc : Except PyErr (List PdfPageSrc)) : GenRun × List Nat :=
  match doc with
  | .error e => (⟨[], some (pdfWrapErr e)⟩, [])
  | .ok pages =>
      let r := parse_pdf_loop pages.length pages 0
      (⟨r.1, r.2.2⟩, r.2.1)

/-- Environment of one `parse_zip` call (lines 146-161): the outcome of
opening the archive (`BadZipFile` when corrupt) giving the member name
list, and for each member index the exception its extraction raises, if
any. -/
structure ZipEnv where
  openResult : Except PyErr (List String)
  extractErr : Nat → Option PyErr

/-- The exception handlers of `parse_zip` (lines 156-161): `BadZipFile`
becomes `ParseError("The file is not a valid ZIP archive")`,
`PermissionError` becomes `ParseError("Permission denied when trying to
extract ZIP contents")`, everything else
`ParseError(f"Error extracting ZIP file: {e}")`. -/
def zipWrapErr (e : PyErr) : PyErr :=
  match e with
  | .badZipFile _ => .parseError "The file is not a valid ZIP archive"
  | .permissionError _ =>
      .parseError "Permission denied when trying to extract ZIP contents"
  | e =>
      let m := e.msg
      .parseError s!"Error extracting ZIP file: {m}"

/-- The member loop of `parse_zip` (lines 152-155), yielding
`f"Extracted {i+1}/{total_files}: {file}\n"` per member until some
extraction raises. -/
def parse_zip_loop (extractErr : Nat → Option PyErr) (total : Nat) :
    List String → Nat → List String × Option PyErr
  | [], _ => ([], none)
  | name :: rest, i =>
      match extractErr i with
      | some e => ([], some (zipWrapErr e))
      | none =>
          let r := parse_zip_loop extractErr total rest (i + 1)
          let j := i + 1
          (s!"Extracted {j}/{total}: {name}\n" :: r.1, r.2)

/-- The generator body of `parse_zip` (lines 146-161). -/
def parse_zip_run (env : ZipEnv) : GenRun :=
  match env.openResult with
  | .error e => ⟨[], some (zipWrapErr e)⟩
  | .ok names =>
      let r := parse_zip_loop env.extractErr names.length names 0
      ⟨r.1, r.2⟩

/-- Environment of one `parse_image` call (lines 290-299): the outcome of
`Image.open` and the outcome of `pytesseract.image_to_string` on the opened
image. -/
structure ImageEnv where
  openResult : Except PyErr Unit
  ocrResult : Except PyErr String

/-- The exception handlers of `parse_image` (lines 296-299):
`UnidentifiedImageError` becomes `ParseError("The file is not a valid image
or the image format is not supported")`, everything else — including an
exception raised by the OCR backend — becomes
`ParseError(f"Error parsing image file: {e}")`. -/
def imageWrapErr (e : PyErr) : PyErr :=
  match e with
  | .unidentifiedImage _ =>
      .parseError "The file is not a valid image or the image format is not supported"
  | e =>
      let m := e.msg
      .parseError s!"Error parsing image file: {m}"

/-- The generator body of `parse_image` (lines 290-299): open the image,
yield the single chunk `pytesseract.image_to_string(img)`; any exception is
wrapped by `imageWrapErr`. -/
def parse_image_run (env : ImageEnv) : GenRun :=
  match env.openResult with
  | .error e => ⟨[], some (imageWrapErr e)⟩
  | .ok _ =>
      match env.ocrResult with
      | .ok t => ⟨[t], none⟩
      | .error e => ⟨[], some (imageWrapErr e)⟩

/-- Message of `FileTooLargeError` (line 81). -/
def tooLargeMsg (sz : Nat) : String :=
  let mx := MAX_FILE_SIZE
  s!"File is too large ({sz} bytes). Maximum allowed size is {mx} bytes."

/-- Sniffing world for a file renamed from `.jpg` to `.dat` in a runtime
without python-magic: the extension table has no entry for `.dat`. -/
def sniffDat : SniffEnv :=
  ⟨mimetypesGuess "photo.dat", false, .ok ""⟩

/-- A `parse_file` call on that renamed file. -/
def envDat : ParseEnv :=
  ⟨"photo.dat", true, 1000, sniffDat, 0, fun _ => 0, fun _ => emptyRun⟩

/-- A two-page PDF whose second page hits a transient `IOError` while its
text is being extracted. -/
def pdfPagesC1 : List PdfPageSrc :=
  [⟨.ok (some "hello"), false, []⟩,
   ⟨.error (.ioError "disk read failed"), false, []⟩]

/-- A `parse_file` call on that PDF: sniffing sees `application/pdf` and
the PDF extractor body is `parse_pdf` on `pdfPagesC1`. -/
def envC1 : ParseEnv :=
  ⟨"deck.pdf", true, 1000,
    ⟨mimetypesGuess "deck.pdf", true, .ok "application/pdf"⟩, 0, fun _ => 0,
    fun e => match e with
      | .pdf => (parse_pdf_run (.ok pdfPagesC1)).1
      | _ => emptyRun⟩

/-- A `parse_file` call in which format identification takes 301 seconds of
wall time while extraction itself is instantaneous and yields one chunk. -/
def envC2 : ParseEnv :=
  ⟨"deck.pdf", true, 1000,
    ⟨mimetypesGuess "deck.pdf", true, .ok "application/pdf"⟩, 301, fun _ => 0,
    fun e => match e with
      | .pdf => ⟨["Page 1/1: hi\n"], none⟩
      | _ => emptyRun⟩

/-- Modelled from the spec: the deadline semantics §3/§4.5 describe, where
the clock starts when extraction begins, so no identification time is on
the clock when the chunk loop starts. -/
def parse_file_clockAtExtraction (env : ParseEnv) : ParseResultT :=
  parse_file { env with sniffTime := 0 }

/-- An image file that opens fine but whose OCR call raises. -/
def envImgFail : ParseEnv :=
  ⟨"scan.png", true, 1000,
    ⟨mimetypesGuess "scan.png", true, .ok "image/png"⟩, 0, fun _ => 0,
    fun e => match e with
      | .image => parse_image_run ⟨.ok (), .error (.otherExc "tesseract crashed")⟩
      | _ => emptyRun⟩

/-- A zip archive that is not a valid archive: `zipfile.ZipFile` raises
`BadZipFile`. -/
def corruptZipEnv : ZipEnv :=
  ⟨.error (.badZipFile "File is not a zip file"), fun _ => none⟩

/-- A valid archive whose first member extraction hits `PermissionError` on
the extraction target. -/
def permZipEnv : ZipEnv :=
  ⟨.ok ["a.txt"], fun _ => some (.permissionError "Permission denied")⟩

/-- A `parse_file` call on a path that does not exist. -/
def envMissing : ParseEnv :=
  ⟨"ghost.zip", false, 0, ⟨none, false, .ok ""⟩, 0, fun _ => 0, fun _ => emptyRun⟩

/-- A file one byte over the 100 MiB ceiling. -/
def envBig : ParseEnv :=
  ⟨"big.bin", true, MAX_FILE_SIZE + 1, ⟨none, true, .ok "application/zip"⟩, 0,
    fun _ => 0, fun _ => emptyRun⟩

/-- A plain-text file whose extractor yields two line chunks. -/
def envText : ParseEnv :=
  ⟨"notes.txt", true, 10,
    ⟨some "text/plain", true, .ok "text/plain"⟩, 0, fun _ => 0,
    fun e => match e with
      | .text => ⟨["line1\n", "line2\n"], none⟩
      | _ => emptyRun⟩

/-- A JPEG image XObject whose OCR reads "OCR TEXT". -/
def imgJpeg : XObjImage := ⟨"/DeviceGray", 8, ["/DCTDecode"], .ok "OCR TEXT"⟩

/-- A two-page PDF: page 1 extracts only whitespace and carries `imgJpeg`,
page 2 extracts real text. -/
def psW : List PdfPageSrc :=
  [⟨.ok (some "  "), true, [.image imgJpeg]⟩,
   ⟨.ok (some "hello"), false, []⟩]

/-- An image XObject with an unsupported colour space. -/
def imgCmyk : XObjImage := ⟨"/DeviceCMYK", 8, [], .ok "A TEXT"⟩

/-- A supported 8-bit RGB image XObject. -/
def imgRgb : XObjImage := ⟨"/DeviceRGB", 8, [], .ok "B TEXT"⟩

/-- A supported 1-bit grayscale image XObject. -/
def imgGray1 : XObjImage := ⟨"/DeviceGray", 1, [], .ok "C TEXT"⟩

/-- A page resource list with an unsupported image first, then a non-image
XObject, then two supported images. -/
def xsMulti : List PdfXObj :=
  [.image imgCmyk, .other, .image imgRgb, .image imgGray1]

/-- A single supported image whose OCR backend raises. -/
def imgOcrBoom : XObjImage := ⟨"/DeviceRGB", 8, [], .error (.otherExc "boom")⟩

/-- Resource list holding only `imgOcrBoom`. -/
def xsOcrBoom : List PdfXObj := [.image imgOcrBoom]

theorem retryRun_const_ok {α : Type} (a : α) :
    retryRun 3 2 (fun _ => (.ok a : Except PyErr α)) = ⟨.ok a, 1, 0⟩ := rfl

theorem wrapErr_isFileParserError (e : PyErr) :
    (wrapErr e).isFileParserError = true := by
  unfold wrapErr
  split
  · assumption
  · rfl

theorem extractLoop_ok_concat (cost : Nat → Nat) :
    ∀ (cs : List String) (i elapsed : Nat) (acc r : String),
      extractLoop cost cs i elapsed acc = .ok r →
      r = cs.foldl (fun a c => a ++ c) acc := by
  intro cs
  induction cs with
  | nil => intro i elapsed acc r h; simp [extractLoop] at h; simp [h]
  | cons c rest ih =>
      intro i elapsed acc r h
      simp only [extractLoop] at h
      split at h
      · exact absurd h (by simp)
      · have := ih (i + 1) (elapsed + cost i) (acc ++ c) r h
        simpa using this

theorem ocrImagePass_spec (xs : List PdfXObj) :
    ocrImagePass xs =
      match firstSupported xs with
      | none => (.ok none, [])
      | some img =>
          match img.ocrResult with
          | .ok t => (.ok (some t), [img])
          | .error e => (.error e, [img]) := by
  induction xs with
  | nil => simp [ocrImagePass, firstSupported]
  | cons x rest ih =>
      cases x with
      | image img =>
          by_cases hd : "/DCTDecode" ∈ img.filters
          · simp [ocrImagePass, firstSupported, imageSupported, hd]
          · by_cases hc : img.colorSpace = "/DeviceRGB" ∨ img.colorSpace = "/DeviceGray"
            · by_cases hb : img.bitsPerComponent = 8 ∨ img.bitsPerComponent = 1
              · simp [ocrImagePass, firstSupported, imageSupported, hd, hc, hb]
              · simp [ocrImagePass, firstSupported, imageSupported, hd, hc, hb, ih]
            · simp [ocrImagePass, firstSupported, imageSupported, hd, hc, ih]
      | formNested h kids => simp [ocrImagePass, firstSupported, ih]
      | formSkip => simp [ocrImagePass, firstSupported, ih]
      | other => simp [ocrImagePass, firstSupported, ih]

theorem ocr_pdf_page_of_firstSupported_ok {xs : List PdfXObj} {img : XObjImage}
    {t : String} (h : firstSupported xs = some img) (ht : img.ocrResult = .ok t) :
    ocr_pdf_page true xs = (t, [img]) := by
  have hp := ocrImagePass_spec xs
  rw [h] at hp
  dsimp only at hp
  rw [ht] at hp
  rw [ocr_pdf_page, hp]
  simp

theorem ocr_pdf_page_of_firstSupported_err {xs : List PdfXObj} {img : XObjImage}
    {e : PyErr} (h : firstSupported xs = some img) (ht : img.ocrResult = .error e) :
    ocr_pdf_page true xs = ("", [img]) := by
  have hp := ocrImagePass_spec xs
  rw [h] at hp
  dsimp only at hp
  rw [ht] at hp
  rw [ocr_pdf_page, hp]
  simp

theorem parse_pdf_loop_ok (total : Nat) :
    ∀ (ps : List PdfPageSrc) (i : Nat),
      (∀ p ∈ ps, ∃ o, p.extractText = .ok o) →
      parse_pdf_loop total ps i =
        ((ps.enumFrom i).map fun z => pdfChunk total z.1 (pdfEmitOk z.2).1,
         (ps.enumFrom i).filterMap fun z =>
           if (pdfEmitOk z.2).2 then some z.1 else none,
         none) := by
  intro ps
  induction ps with
  | nil => intro i _; simp [parse_pdf_loop, List.enumFrom]
  | cons p rest ih =>
      intro i h
      obtain ⟨o, ho⟩ := h p (by simp)
      have hrest := ih (i + 1) (fun q hq => h q (by simp [hq]))
      by_cases hb : pyStripEmpty (pyOr o) = true
      · simp [parse_pdf_loop, pdfPageEmit, pdfEmitOk, ho, hb, hrest, List.enumFrom]
      · simp only [Bool.not_eq_true] at hb
        simp [parse_pdf_loop, pdfPageEmit, pdfEmitOk, ho, hb, hrest, List.enumFrom]

theorem retryRun_const_result {α : Type} (x : Except PyErr α) :
    (retryRun 3 2 (fun _ => x)).result = x := by
  cases x with
  | ok a => rfl
  | error e => cases e <;> rfl

/-- C1: the spec claims a transient mid-extraction failure re-invokes the
whole extractor up to 3 times with a 2-second delay.  In the code every
extractor is a generator function, so the retry-wrapped call merely creates
the generator on its first attempt (one call, zero sleep) and can never
observe a transient error; a transient `IOError` raised while the PDF body
is iterated is wrapped into `ParseError` by the handler inside the body and
propagates after a single extraction run with no delay. -/
theorem C1_extractor_retry_never_reinvokes :
    (∀ g : GenRun, retryRun 3 2 (fun _ => (.ok g : Except PyErr GenRun)) = ⟨.ok g, 1, 0⟩)
    ∧ parse_file envC1 =
        ⟨.error (.parseError "Error parsing PDF file: disk read failed"),
         [.metaExists, .metaSize, .sniffContent, .extractorStart .pdf], 0, 1⟩ := by
  refine ⟨fun g => rfl, ?_⟩
  rfl

/-- C2 counterexample: format identification time is counted against the
deadline.  With 301 seconds spent sniffing and an instantaneous one-chunk
extraction, the code raises `ProcessingTimeoutError`, while the semantics
the claim describes (clock starting at extraction) would succeed. -/
theorem C2_counterexample_sniff_time_on_clock :
    (parse_file envC2).result =
        .error (.processingTimeout "Processing time exceeded 300 seconds")
    ∧ (parse_file_clockAtExtraction envC2).result = .ok "Page 1/1: hi\n" := by
  exact ⟨rfl, rfl⟩

/-- C2 amended: `start_time` is taken before `identify_format`, so time
spent in format identification does count against the 300-second deadline,
which is checked after every emitted chunk: whenever sniffing time plus the
first chunk cost already exceeds the budget, `parse()` fails with
`ProcessingTimeoutError` even though extraction has barely begun. -/
theorem C2_amended_clock_starts_before_sniffing
    (env : ParseEnv) (fg : FormatGuess) (ex : Extractor) (c : String)
    (rest : List String)
    (h1 : env.fileExists = true) (h2 : env.size ≤ MAX_FILE_SIZE)
    (h3 : identify_format env.sniff = .ok fg)
    (h4 : selectExtractor fg.content_guess env.path = .ok ex)
    (h5 : (env.extractorRun ex).chunks = c :: rest)
    (h6 : env.sniffTime + env.chunkCost 0 > MAX_PROCESSING_TIME) :
    (parse_file env).result =
      .error (.processingTimeout "Processing time exceeded 300 seconds") := by
  have h2n : ¬ env.size > MAX_FILE_SIZE := by omega
  unfold parse_file
  simp only [h1, Bool.not_true, Bool.false_eq_true, if_false, h2n, if_neg,
    not_false_eq_true, h3, retryRun_const_ok, h4, h5]
  simp only [extractLoop, h6, if_pos]
  simp [wrapErr, PyErr.isFileParserError, MAX_PROCESSING_TIME]
  rfl

theorem C2_amended_witness :
    (parse_file envC2).result =
      .error (.processingTimeout "Processing time exceeded 300 seconds") :=
  C2_amended_clock_starts_before_sniffing envC2
    ⟨mimetypesGuess "deck.pdf", some "application/pdf"⟩ .pdf "Page 1/1: hi\n" []
    rfl (by decide) rfl (by decide) rfl (by decide)

/-- C7: for an existing file larger than `MAX_FILE_SIZE`, `parse_file`
raises `FileTooLargeError` having touched only filesystem metadata (the
existence check and the size read): no content byte is sniffed, no
extractor is started and no extractor body runs. -/
theorem C7_size_guard_before_any_read (env : ParseEnv)
    (h1 : env.fileExists = true) (h2 : env.size > MAX_FILE_SIZE) :
    parse_file env =
      ⟨.error (.fileTooLarge (tooLargeMsg env.size)),
       [.metaExists, .metaSize], 0, 0⟩ := by
  unfold parse_file
  simp [h1, h2, tooLargeMsg]

theorem C7_witness :
    parse_file envBig =
      ⟨.error (.fileTooLarge (tooLargeMsg envBig.size)),
       [.metaExists, .metaSize], 0, 0⟩ :=
  C7_size_guard_before_any_read envBig rfl (by decide)

/-- C8: when `parse_file` returns successfully, the returned string is the
left fold of string concatenation over the chunks of the generator body of
the extractor dispatch selected — the chunks in production order, nothing
reordered, dropped or added. -/
theorem C8_result_concatenates_chunks (env : ParseEnv) (s : String)
    (h : (parse_file env).result = .ok s) :
    ∃ ex, chosenExtractor env = some ex ∧
      s = concatChunks (env.extractorRun ex).chunks := by
  unfold parse_file at h
  split at h
  · simp at h
  · split at h
    · simp at h
    · dsimp only at h
      split at h
      case h_1 e heq => simp at h
      case h_2 fg heq =>
        have hident : identify_format env.sniff = .ok fg := by
          have := retryRun_const_result (identify_format env.sniff)
          rw [heq] at this
          exact this.symm
        split at h
        · simp at h
        case h_2 ex hsel =>
          split at h
          case h_1 e hcall =>
            have := retryRun_const_result
              (.ok (env.extractorRun ex) : Except PyErr GenRun)
            rw [hcall] at this
            simp at this
          case h_2 gen hcall =>
            have hgen : gen = env.extractorRun ex := by
              have := retryRun_const_result
                (.ok (env.extractorRun ex) : Except PyErr GenRun)
              rw [hcall] at this
              simpa using this
            split at h
            · simp at h
            case h_2 acc hloop =>
              split at h
              · simp at h
              case h_2 hfin =>
                simp at h
                refine ⟨ex, ?_, ?_⟩
                · unfold chosenExtractor
                  rw [hident]
                  simp [hsel, Except.toOption]
                · have hc := extractLoop_ok_concat env.chunkCost gen.chunks 0
                    env.sniffTime "" acc hloop
                  rw [← h, hc, hgen]
                  rfl

/-- C3 counterexample: an OCR failure does surface as `ParseError` when it
happens inside the Image extractor — `parse_image` calls the OCR backend
directly and its catch-all handler wraps the backend exception into
`ParseError`, which `parse_file` re-raises to the caller. -/
theorem C3_counterexample_image_ocr_failure_surfaces :
    (parse_file envImgFail).result =
      .error (.parseError "Error parsing image file: tesseract crashed") := rfl

/-- C3 amended: OCR failures inside the PDF page OCR path are absorbed —
`ocr_pdf_page` catches the backend exception and returns empty text —
but an OCR failure inside the Image extractor is wrapped into `ParseError`
by `parse_image` and surfaces to the caller of `parse()`. -/
theorem C3_amended_pdf_ocr_absorbed_image_ocr_raises :
    (∀ (xs : List PdfXObj) (img : XObjImage) (e : PyErr),
        firstSupported xs = some img → img.ocrResult = .error e →
        ocr_pdf_page true xs = ("", [img]))
    ∧ (parse_file envImgFail).result =
        .error (.parseError "Error parsing image file: tesseract crashed") :=
  ⟨fun _ _ _ h ht => ocr_pdf_page_of_firstSupported_err h ht, rfl⟩

theorem C3_amended_witness :
    ocr_pdf_page true xsOcrBoom = ("", [imgOcrBoom]) :=
  C3_amended_pdf_ocr_absorbed_image_ocr_raises.1 xsOcrBoom imgOcrBoom
    (.otherExc "boom") rfl rfl

/-- C4 counterexample: a corrupt archive and a permission failure both
raise the *same* `ParseError` variant (equal constructor tags),
distinguished only by their message strings — there are no distinct
`CorruptArchive` / `PermissionDenied` variants — and a missing file
escapes `parse_file` as the builtin `FileNotFoundError`, which is outside
the `FileParserError` family. -/
theorem C4_counterexample_no_distinct_variants :
    (parse_zip_run corruptZipEnv).final =
        some (.parseError "The file is not a valid ZIP archive")
    ∧ (parse_zip_run permZipEnv).final =
        some (.parseError "Permission denied when trying to extract ZIP contents")
    ∧ PyErr.ctorTag (.parseError "The file is not a valid ZIP archive") =
        PyErr.ctorTag (.parseError "Permission denied when trying to extract ZIP contents")
    ∧ (parse_file envMissing).result =
        .error (.fileNotFound "File not found: ghost.zip")
    ∧ PyErr.isFileParserError (.fileNotFound "File not found: ghost.zip") = false :=
  ⟨rfl, rfl, rfl, rfl, rfl⟩

/-- C4 amended: every failure of `parse_file` is either a member of the
`FileParserError` family (`FileTooLargeError`, `ProcessingTimeoutError`,
`UnsupportedFileTypeError`, `ParseError` or the base class) or the builtin
`FileNotFoundError`; an invalid archive and a permission failure both
surface as the single `ParseError` variant, distinguished only by
message. -/
theorem C4_amended_closed_taxonomy :
    (∀ (env : ParseEnv) (e : PyErr), (parse_file env).result = .error e →
        e.isFileParserError = true ∨ ∃ m, e = .fileNotFound m)
    ∧ (parse_zip_run corruptZipEnv).final =
        some (.parseError "The file is not a valid ZIP archive")
    ∧ (parse_zip_run permZipEnv).final =
        some (.parseError "Permission denied when trying to extract ZIP contents") := by
  refine ⟨?_, rfl, rfl⟩
  intro env e h
  unfold parse_file at h
  split at h
  · simp at h
    right
    exact ⟨_, h.symm⟩
  · split at h
    · simp at h
      left
      rw [← h]
      rfl
    · dsimp only at h
      split at h
      · simp at h
        left
        rw [← h]
        exact wrapErr_isFileParserError _
      · split at h
        · simp at h
          left
          rw [← h]
          exact wrapErr_isFileParserError _
        · split at h
          · simp at h
            left
            rw [← h]
            exact wrapErr_isFileParserError _
          · split at h
            · simp at h
              left
              rw [← h]
              exact wrapErr_isFileParserError _
            · split at h
              · simp at h
                left
                rw [← h]
                exact wrapErr_isFileParserError _
              · simp at h

theorem C4_amended_witness :
    PyErr.isFileParserError (.fileNotFound "File not found: ghost.zip") = true
      ∨ ∃ m, (PyErr.fileNotFound "File not found: ghost.zip" : PyErr) =
          .fileNotFound m :=
  C4_amended_closed_taxonomy.1 envMissing _ rfl

/-- C5: the dispatch of `parse_file` equals the specification
priority-ordered guard table — zip, then pdf, then text, then docx
(content contains "word" or path ends in .docx), then xlsx (content
contains "excel" or path ends in .xlsx), then image, else unsupported —
and a `.docx` / `.xlsx` path whose content sniff recognises no Office
format is still routed to the Docx / Xlsx extractor by the extension
fallback. -/
theorem C5_dispatch_priority_and_extension_fallback :
    (∀ cg path, selectExtractor (some cg) path = dispatchSpec cg path)
    ∧ selectExtractor (some "application/octet-stream") "report.docx" = .ok .docx
    ∧ selectExtractor (some "application/octet-stream") "report.xlsx" = .ok .xlsx := by
  refine ⟨?_, by decide, by decide⟩
  intro cg path
  cases h1 : strContains cg "zip" <;>
  cases h2 : strContains cg "pdf" <;>
  cases h3 : strContains cg "text" <;>
  cases h4 : strContains cg "word" || strEndsWith path ".docx" <;>
  cases h5 : strContains cg "excel" || strEndsWith path ".xlsx" <;>
  cases h6 : strContains cg "image" <;>
  simp [selectExtractor, dispatchSpec, dispatchTable, List.find?, h1, h2, h3,
    h4, h5, h6]

/-- C6 counterexample: a file renamed from `.jpg` to `.dat`, in a runtime
without content sniffing, gets extension guess `None` (the stdlib table
has no `.dat` entry), hence content guess `None`; dispatch then raises
`TypeError` on the `None` membership test, which `parse_file` wraps into a
generic `ParseError` — no extractor (in particular not the Image
extractor) is ever started. -/
theorem C6_counterexample_renamed_dat_not_image :
    identify_format sniffDat = .ok ⟨none, none⟩
    ∧ chosenExtractor envDat = none
    ∧ (parse_file envDat).result =
        .error (.parseError "Failed to parse file: argument of type NoneType is not iterable")
    ∧ (parse_file envDat).bodyStarts = 0 :=
  ⟨rfl, rfl, rfl, rfl⟩

/-- C6 amended: when content sniffing is unavailable the content guess
does degrade to the extension guess; but for a file renamed from `.jpg`
to `.dat` the extension guess is `None`, so `parse()` fails with a generic
`ParseError` (a `TypeError` on the `None` guess wrapped by `parse_file`)
instead of resolving to the Image extractor. -/
theorem C6_amended_degrades_to_extension_guess :
    (∀ s : SniffEnv, s.magicAvailable = false →
        identify_format s = .ok ⟨s.extGuess, s.extGuess⟩)
    ∧ (parse_file envDat).result =
        .error (.parseError "Failed to parse file: argument of type NoneType is not iterable") := by
  refine ⟨?_, rfl⟩
  intro s hs
  simp [identify_format, hs]

theorem C6_amended_witness :
    identify_format sniffDat = .ok ⟨sniffDat.extGuess, sniffDat.extGuess⟩ :=
  C6_amended_degrades_to_extension_guess.1 sniffDat rfl

/-- C9: a page whose extracted text is empty or whitespace-only is emitted
with the OCR text of its resources (possibly empty) and is recorded as
OCRed, while a page with non-whitespace text is emitted verbatim without
OCR; consequently, for a document whose pages all extract without raising,
`parse_pdf` emits one chunk per page in order, each built from the post-OCR
text, and the OCRed page indices are exactly the blank pages. -/
theorem C9_blank_pages_get_ocr :
    (∀ (p : PdfPageSrc) (o : Option String), p.extractText = .ok o →
        pdfPageEmit p =
          .ok (if pyStripEmpty (pyOr o) then
                ((ocr_pdf_page p.hasXObject p.xobjs).1, true)
              else (pyOr o, false)))
    ∧ (∀ ps : List PdfPageSrc, (∀ p ∈ ps, ∃ o, p.extractText = .ok o) →
        parse_pdf_run (.ok ps) =
          (⟨ps.enum.map fun z => pdfChunk ps.length z.1 (pdfEmitOk z.2).1, none⟩,
           ps.enum.filterMap fun z =>
             if (pdfEmitOk z.2).2 then some z.1 else none)) := by
  constructor
  · intro p o ho
    simp only [pdfPageEmit, ho]
    by_cases hb : pyStripEmpty (pyOr o)
    · simp [hb]
    · simp [hb]
  · intro ps h
    unfold parse_pdf_run
    dsimp only
    rw [parse_pdf_loop_ok ps.length ps 0 h]
    rfl

theorem C9_witness :
    parse_pdf_run (.ok psW) =
      (⟨["Page 1/2: OCR TEXT\n", "Page 2/2: hello\n"], none⟩, [0]) := by
  have hocr : ocr_pdf_page true [PdfXObj.image imgJpeg] = ("OCR TEXT", [imgJpeg]) :=
    ocr_pdf_page_of_firstSupported_ok rfl rfl
  have h := C9_blank_pages_get_ocr.2 psW
    (by
      intro p hp
      simp [psW] at hp
      rcases hp with hp | hp <;> exact ⟨_, by rw [hp]⟩)
  rw [h]
  have hb1 : pyStripEmpty (pyOr (some "  ")) = true := by decide
  have hb2 : pyStripEmpty (pyOr (some "hello")) = false := by decide
  simp [psW, List.enum, List.enumFrom, pdfEmitOk, pdfPageEmit, hb1, hb2, hocr,
    pdfChunk]
  exact ⟨rfl, rfl⟩

/-- C10: when the XObject list of a page contains a supported image (supported
filter, or supported colour space and bit depth), the page OCR returns the
OCR text of the *first* such image in iteration order and invokes the OCR
backend exactly once, on that image: earlier unsupported images are
skipped while the search continues, and all later images are never
OCRed. -/
theorem C10_first_supported_image_wins (xs : List PdfXObj) (img : XObjImage)
    (t : String) (h : firstSupported xs = some img)
    (ht : img.ocrResult = .ok t) :
    ocr_pdf_page true xs = (t, [img]) :=
  ocr_pdf_page_of_firstSupported_ok h ht

theorem C10_witness :
    ocr_pdf_page true xsMulti = ("B TEXT", [imgRgb]) :=
  C10_first_supported_image_wins xsMulti imgRgb "B TEXT" rfl rfl

theorem C8_witness :
    ∃ ex, chosenExtractor envText = some ex ∧
      "line1\nline2\n" = concatChunks (envText.extractorRun ex).chunks :=
  C8_result_concatenates_chunks envText "line1\nline2\n" rfl
